import Mathlib

/-!
# Verification of the archaeoscan analytics core

Shallow embedding of the analytics-and-distribution pipeline of the
archaeoscan repository:

* `radar_processing.py` — signal conditioning, reflection detection,
  anomaly classification, and depth-layer segmentation;
* `material_classification.py` — spectral feature extraction;
* `preservation_service.py` — material / water preservation scoring;
* `websocket.py` — the broadcast hub (connection set, ring buffer,
  cross-thread dispatch).

Conventions of the embedding:

* Python floats are modelled as exact rationals (`ℚ`).  Where NaN/Inf
  handling is part of the code under scrutiny, inputs are modelled by
  `PyFloat`, a rational extended with `nan`/`inf`/`ninf` markers.
* `round(x, 2)` (Python's banker's rounding) is modelled exactly on `ℚ`
  by `pyRound2` (round half to even at two decimal places).
* Fallible operations (numpy raising `ValueError`/`IndexError`,
  Python `ZeroDivisionError`) return `Except PyErr`.
* External scipy filters (`butter`+`filtfilt`, `savgol_filter`) are not
  part of the repository; the conditioning pipeline is parametrised over
  them (`bf` for the bandpass design+zero-phase filter returning `none`
  on filter-design failure, `sg` for Savitzky–Golay with window and
  polynomial order).  Everything else is translated from the source.
* `np.std` is irrational in general; wherever a standard deviation is
  only *stored* in a result record (never compared), the embedding keeps
  its square (the variance) in a field named `…var…`, so that all
  definitions stay inside `ℚ` and remain executable.  Comparisons of the
  form `a > 1.5·std` (with `a ≥ 0`) are encoded equivalently as
  `a² > (3/2)²·var`.
-/

/-- Python / numpy exceptions that the modelled code can raise. -/
inductive PyErr
  | valueError
  | indexError
  | zeroDivision
  | runtimeError
  | timeoutError
deriving DecidableEq

/-- `Except` success test (avoids depending on library helpers). -/
def exOk {ε α : Type} : Except ε α → Bool
  | .ok _ => true
  | .error _ => false

/-- Round half to even at integer precision, on exact rationals.  This is
Python's `round` tie-breaking rule. -/
def roundHalfEven (x : ℚ) : ℤ :=
  if x - ⌊x⌋ < 1/2 then ⌊x⌋
  else if x - ⌊x⌋ > 1/2 then ⌊x⌋ + 1
  else if 2 ∣ ⌊x⌋ then ⌊x⌋ else ⌊x⌋ + 1

/-- Python's `round(x, 2)` on exact rationals. -/
def pyRound2 (x : ℚ) : ℚ := (roundHalfEven (x * 100) : ℚ) / 100

/-! ## RadarProcessor (`radar_processing.py`) -/

/-- `AnomalyType` enum. -/
inductive AnomalyType
  | metal
  | stone
  | void
  | organic
  | unknown
deriving DecidableEq

/-- `AnomalyDetectionResult` dataclass. -/
structure AnomalyDetectionResult where
  x : ℚ
  y : ℚ
  type : AnomalyType
  confidence : ℚ
  amplitude : ℚ
  depth : ℚ
deriving DecidableEq

/-- Normalised band-pass cutoffs of `preprocess_signal`:
`nyquist = rate/2`, each of 10 MHz / 1000 MHz divided by nyquist and
clamped into `[0.01, 0.99]`; the pair defaults to `(0.01, 0.99)` unless
`low < high`. -/
def normCutoffs (rate : ℚ) : ℚ × ℚ :=
  let nyquist := rate / 2
  let lowFreq := max (1/100) (min (99/100) (10 / nyquist))
  let highFreq := max (1/100) (min (99/100) (1000 / nyquist))
  if lowFreq ≥ highFreq then (1/100, 99/100) else (lowFreq, highFreq)

/-- The `try: butter/filtfilt except: original` block of
`preprocess_signal`: apply the external bandpass filter at the computed
cutoffs, falling back to the unfiltered signal when filter design or
filtering fails (`bf … = none`). -/
def tryBandpass (bf : ℚ → ℚ → List ℚ → Option (List ℚ)) (rate : ℚ)
    (sig : List ℚ) : List ℚ :=
  match bf (normCutoffs rate).1 (normCutoffs rate).2 sig with
  | some f => f
  | none => sig

/-- The Savitzky–Golay stage of `preprocess_signal`: only for signals of
length > 5; window `min 5 len`, forced odd and at least 3, polynomial
order 3. -/
def savgolStage (sg : Nat → Nat → List ℚ → List ℚ) (sig : List ℚ) : List ℚ :=
  if sig.length > 5 then
    let wl := min 5 sig.length
    let wl := if wl % 2 = 0 then wl - 1 else wl
    let wl := if wl < 3 then 3 else wl
    if sig.length ≥ wl then sg wl 3 sig else sig
  else sig

/-- `RadarProcessor.preprocess_signal`.  Signals of length < 3 are
returned as is; the bandpass stage runs only for length > 8; the
smoothing stage only for length > 5. -/
def preprocess_signal (bf : ℚ → ℚ → List ℚ → Option (List ℚ))
    (sg : Nat → Nat → List ℚ → List ℚ)
    (raw : List ℚ) (rate : ℚ) : List ℚ :=
  if raw.length < 3 then raw
  else
    let filtered := if raw.length > 8 then tryBandpass bf rate raw else raw
    savgolStage sg filtered

/-- `RadarProcessor.classify_anomaly`.  The `depth` argument is unused by
the source as well. -/
def classify_anomaly (amp w _depth : ℚ) (surrounding : List ℚ) :
    AnomalyType × ℚ :=
  let a := |amp|
  if 7/10 < a ∧ w < 5 then
    (.metal, min (19/20) a)
  else if 3/10 < a ∧ a < 7/10 ∧ 8 < w then
    (.stone, min (17/20) (a * (11/10)))
  else if 1/5 < a ∧ a < 1/2 ∧ 10 < w then
    (.organic, min (3/4) (a * (6/5)))
  else if a < 1/5 ∧
      ((surrounding.filter (fun s => |s| < 1/10)).length : ℚ) >
        (surrounding.length : ℚ) * (7/10) then
    (.void, 7/10)
  else
    (.unknown, max (1/10) (a * (1/2)))

/-! ### `scipy.signal.find_peaks` (local maxima, height and distance
conditions — the three features `detect_reflections` uses) -/

/-- Inner while-loop of scipy's `_local_maxima_1d`: advance `i` while the
plateau value `v` continues and `i < iMax`.  `fuel` makes the recursion
structural; it is always called with enough fuel (`x.size`). -/
def plateauEndAux (x : Array ℚ) (v : ℚ) (iMax : Nat) : Nat → Nat → Nat
  | i, 0 => i
  | i, fuel + 1 =>
    if i < iMax ∧ x.getD i 0 = v then plateauEndAux x v iMax (i + 1) fuel
    else i

/-- Outer loop of scipy's `_local_maxima_1d`: for each `i` with
`x[i-1] < x[i]`, find the end of the plateau; if the sample after the
plateau is strictly smaller, record the plateau midpoint as a peak. -/
def localMaxAux (x : Array ℚ) (iMax : Nat) : Nat → Nat → List Nat
  | _, 0 => []
  | i, fuel + 1 =>
    if i < iMax then
      if x.getD (i - 1) 0 < x.getD i 0 then
        let iAhead := plateauEndAux x (x.getD i 0) iMax (i + 1) x.size
        if x.getD iAhead 0 < x.getD i 0 then
          (i + (iAhead - 1)) / 2 :: localMaxAux x iMax (iAhead + 1) fuel
        else localMaxAux x iMax (i + 1) fuel
      else localMaxAux x iMax (i + 1) fuel
    else []

/-- All interior local maxima (with plateau handling) of a signal, as in
scipy's `_local_maxima_1d`. -/
def localMaxima (x : List ℚ) : List Nat :=
  let a := x.toArray
  localMaxAux a (a.size - 1) 1 (a.size + 1)

/-- Insertion into a sorted list (used to model `np.argsort`; stable, by
key `le`). -/
def insertSorted {α : Type} (le : α → α → Bool) (x : α) : List α → List α
  | [] => [x]
  | y :: ys => if le x y then x :: y :: ys else y :: insertSorted le x ys

/-- Stable insertion sort (numpy's argsort tie order is unspecified; the
model fixes the stable order). -/
def insertionSort {α : Type} (le : α → α → Bool) : List α → List α
  | [] => []
  | x :: xs => insertSorted le x (insertionSort le xs)

/-- Left-walking while-loop of scipy's `_select_by_peak_distance`: clear
`keep` for indices `k < j` while `peaks[j] - peaks[k] < dist`. -/
def clearLeftAux (peaks : Array Nat) (dist pj : Nat) :
    Nat → Array Bool → Array Bool
  | 0, keep => keep
  | k + 1, keep =>
    if pj - peaks.getD k 0 < dist then
      clearLeftAux peaks dist pj k (keep.setD k false)
    else keep

/-- Right-walking while-loop of scipy's `_select_by_peak_distance`. -/
def clearRightAux (peaks : Array Nat) (dist pj : Nat) :
    Nat → Nat → Array Bool → Array Bool
  | _, 0, keep => keep
  | k, fuel + 1, keep =>
    if k < peaks.size ∧ peaks.getD k 0 - pj < dist then
      clearRightAux peaks dist pj (k + 1) fuel (keep.setD k false)
    else keep

/-- scipy's `_select_by_peak_distance`: process peaks from highest to
lowest priority; each surviving peak clears all neighbours closer than
`dist` samples. -/
def selectByPeakDistance (peaks : List Nat) (priority : List ℚ)
    (dist : Nat) : List Nat :=
  let pk := peaks.toArray
  let n := pk.size
  let order := insertionSort (fun p q => decide (p.2 ≤ q.2)) priority.enum
  let keep := (order.reverse).foldl
    (fun keep pr =>
      let j := pr.1
      if keep.getD j true then
        let keep := clearLeftAux pk dist (pk.getD j 0) j keep
        clearRightAux pk dist (pk.getD j 0) (j + 1) n keep
      else keep)
    (Array.mkArray n true)
  (List.range n).filterMap
    (fun j => if keep.getD j false then some (pk.getD j 0) else none)

/-- `scipy.signal.find_peaks(x, height, distance)` restricted to the
arguments `detect_reflections` passes. -/
def find_peaks_model (x : List ℚ) (height : ℚ) (distance : Nat) :
    List Nat :=
  let a := x.toArray
  let maxima := localMaxima x
  let withHeight := maxima.filter (fun i => height ≤ a.getD i 0)
  selectByPeakDistance withHeight
    (withHeight.map (fun i => a.getD i 0)) distance

/-- `RadarProcessor.detect_reflections`: peaks of the absolute signal
with height ≥ 0.3 and separation ≥ `int(0.5 / 0.1) = 5` samples, each
paired with the (signed) signal value. -/
def detect_reflections (s : List ℚ) : List (Nat × ℚ) :=
  let absS := s.map (fun v => |v|)
  let peaks := find_peaks_model absS (3/10) 5
  peaks.map (fun i => (i, s.getD i 0))

/-- While-loop walking leftwards in `estimate_signal_width`
(`while left > 0 and |s[left]| > thr`). -/
def leftEdgeAux (s : Array ℚ) (thr : ℚ) : Nat → Nat
  | 0 => 0
  | i + 1 => if thr < |s.getD (i + 1) 0| then leftEdgeAux s thr i else i + 1

/-- While-loop walking rightwards in `estimate_signal_width`
(`while right < len - 1 and |s[right]| > thr`). -/
def rightEdgeAux (s : Array ℚ) (thr : ℚ) : Nat → Nat → Nat
  | i, 0 => i
  | i, fuel + 1 =>
    if i < s.size - 1 ∧ thr < |s.getD i 0| then
      rightEdgeAux s thr (i + 1) fuel
    else i

/-- `RadarProcessor.estimate_signal_width` with the default
`threshold_factor = 0.5`. -/
def estimate_signal_width (s : List ℚ) (peakIdx : Nat) : Nat :=
  let a := s.toArray
  let thr := |a.getD peakIdx 0| * (1/2)
  rightEdgeAux a thr peakIdx a.size - leftEdgeAux a thr peakIdx

/-- `RadarProcessor.detect_anomalies` (default sampling rate 1000.0,
depth resolution 0.1 m/sample), parametrised over the external filters
like `preprocess_signal`. -/
def detect_anomalies (bf : ℚ → ℚ → List ℚ → Option (List ℚ))
    (sg : Nat → Nat → List ℚ → List ℚ)
    (depth_profile : List ℚ) (x y : ℚ) : List AnomalyDetectionResult :=
  if depth_profile = [] then []
  else
    let s := preprocess_signal bf sg depth_profile 1000
    (detect_reflections s).map (fun r =>
      let idx := r.1
      let amp := r.2
      let w := estimate_signal_width s idx
      let depth := (idx : ℚ) * (1/10)
      let start := idx - 10
      let stop := min s.length (idx + 10)
      let surrounding := (s.drop start).take (stop - start)
      let c := classify_anomaly amp (w : ℚ) depth surrounding
      ⟨x, y, c.1, c.2, amp, depth⟩)

/-! ### Depth-layer analysis (`analyze_depth_profile`) -/

/-- `np.mean` on a rational list (`sum/len`; never applied to an empty
list by the modelled code). -/
def npMean (l : List ℚ) : ℚ := l.sum / l.length

/-- Population variance, i.e. the square of `np.std`. -/
def npVar (l : List ℚ) : ℚ :=
  (l.map (fun x => (x - npMean l) ^ 2)).sum / l.length

/-- The finite differences `np.gradient` computes (default
`edge_order = 1`): one-sided at the boundary, central inside. -/
def gradientBody (l : List ℚ) : List ℚ :=
  (List.range l.length).map (fun i =>
    if i = 0 then l.getD 1 0 - l.getD 0 0
    else if i = l.length - 1 then
      l.getD (l.length - 1) 0 - l.getD (l.length - 2) 0
    else (l.getD (i + 1) 0 - l.getD (i - 1) 0) / 2)

/-- `np.gradient`, which raises `ValueError` for arrays of fewer than 2
elements. -/
def npGradient (l : List ℚ) : Except PyErr (List ℚ) :=
  if l.length < 2 then .error .valueError
  else .ok (gradientBody l)

/-- A detected layer.  `var_amplitude` stores the square of the
`std_amplitude` that the source stores (see the module comment). -/
structure Layer where
  start_depth : ℚ
  end_depth : ℚ
  mean_amplitude : ℚ
  var_amplitude : ℚ
  thickness : ℚ
deriving DecidableEq

/-- An intermediate layer `[s, b)` of `analyze_depth_profile`
(depth resolution 0.1). -/
def mkMidLayer (prof : List ℚ) (s b : Nat) : Layer :=
  let seg := (prof.drop s).take (b - s)
  { start_depth := (s : ℚ) * (1/10)
    end_depth := (b : ℚ) * (1/10)
    mean_amplitude := npMean seg
    var_amplitude := npVar seg
    thickness := ((b - s : Nat) : ℚ) * (1/10) }

/-- The final layer `[s, len)` of `analyze_depth_profile`; its
`end_depth` is the depth of the last sample, `(len-1)·0.1`. -/
def mkFinalLayer (prof : List ℚ) (s : Nat) : Layer :=
  let seg := prof.drop s
  { start_depth := (s : ℚ) * (1/10)
    end_depth := ((prof.length : ℚ) - 1) * (1/10)
    mean_amplitude := npMean seg
    var_amplitude := npVar seg
    thickness := ((prof.length - s : Nat) : ℚ) * (1/10) }

/-- The boundary loop of `analyze_depth_profile`: accept a boundary only
when it is more than 5 samples past the current segment start; always
append the final layer when the segment start is inside the profile. -/
def layersFrom (prof : List ℚ) : List Nat → Nat → List Layer
  | [], s => if s < prof.length then [mkFinalLayer prof s] else []
  | b :: bs, s =>
    if b - s > 5 then mkMidLayer prof s b :: layersFrom prof bs b
    else layersFrom prof bs s

/-- Result record of `analyze_depth_profile`. -/
structure LayerAnalysis where
  layers : List Layer
  boundaries : List ℚ
  total_depth : ℚ
deriving DecidableEq

/-- The boundary indices of `analyze_depth_profile`: the adaptive test
`|∇|ᵢ > 1.5·std(|∇|)` is encoded as `(|∇|ᵢ)² > (3/2)²·var(|∇|)` (both
sides non-negative, so the encodings are equivalent; see the module
comment). -/
def boundaryIndices (n : Nat) (grad : List ℚ) : List Nat :=
  let absGrad := grad.map (fun g => |g|)
  let varAG := npVar absGrad
  (List.range n).filter
    (fun i => decide ((absGrad.getD i 0) ^ 2 > (9/4) * varAG))

/-- Body of `analyze_depth_profile` after the gradient has been
computed. -/
def analyzeCore (prof : List ℚ) (grad : List ℚ) : LayerAnalysis :=
  let boundaries := boundaryIndices prof.length grad
  { layers := layersFrom prof boundaries 0
    boundaries := boundaries.map (fun i => (i : ℚ) * (1/10))
    total_depth := (prof.length : ℚ) * (1/10) }

/-- `RadarProcessor.analyze_depth_profile`; the gradient raises for
profiles of fewer than 2 samples, exactly as `np.gradient` does. -/
def analyze_depth_profile (prof : List ℚ) : Except PyErr LayerAnalysis :=
  (npGradient prof).map (analyzeCore prof)

/-- The layers computed by `analyze_depth_profile`, or `[]` when it
raises. -/
def layersOf (prof : List ℚ) : List Layer :=
  match analyze_depth_profile prof with
  | .ok r => r.layers
  | .error _ => []

/-- Boolean chain check used to state C7: successive layers meet
(`end_depth` = next `start_depth`), each layer is depth-ascending, and
the first layer starts at depth `d`. -/
def chainOk (d : ℚ) : List Layer → Bool
  | [] => true
  | l :: ls =>
    decide (l.start_depth = d) && decide (l.start_depth ≤ l.end_depth) &&
      chainOk l.end_depth ls

/-- A default layer for `getLastD`/`headD` statements. -/
def dummyLayer : Layer := ⟨0, 0, 0, 0, 0⟩

/-! ## MaterialClassifier feature extraction
(`material_classification.py`) -/

/-- `max` of a list with a default for the empty case.  `np.ndarray.max`
raises on an empty array; the modelled code only reaches the total
variant on non-empty data. -/
def listMaxD (l : List ℚ) (d : ℚ) : ℚ :=
  match l with
  | [] => d
  | x :: xs => xs.foldl max x

/-- `min` of a list with a default (see `listMaxD`). -/
def listMinD (l : List ℚ) (d : ℚ) : ℚ :=
  match l with
  | [] => d
  | x :: xs => xs.foldl min x

/-- `np.median`: sort, take the middle element (odd length) or the mean
of the two middle elements (even length). -/
def npMedian (l : List ℚ) : ℚ :=
  let s := insertionSort (fun a b => decide (a ≤ b)) l
  let n := s.length
  if n % 2 = 1 then s.getD (n / 2) 0
  else (s.getD (n / 2 - 1) 0 + s.getD (n / 2) 0) / 2

/-- Intensity normalisation at the start of `preprocess_spectrum`:
`(i - min) / (max - min)`, or all zeros when every intensity is equal;
`intensities.max()` raises `ValueError` on an empty array. -/
def normalizeIntensities (i : List ℚ) : Except PyErr (List ℚ) :=
  match i with
  | [] => .error .valueError
  | x :: xs =>
    let mx := listMaxD (x :: xs) 0
    let mn := listMinD (x :: xs) 0
    if mx ≠ mn then .ok ((x :: xs).map (fun v => (v - mn) / (mx - mn)))
    else .ok ((x :: xs).map (fun _ => 0))

/-- `MaterialClassifier.find_peaks`: strict interior local maxima above
the 0.3 threshold. -/
def spectrumPeaks (a : List ℚ) : List Nat :=
  (List.range a.length).filter (fun i =>
    decide (0 < i) && decide (i + 1 < a.length) &&
      decide (a.getD (i - 1) 0 < a.getD i 0) &&
      decide (a.getD (i + 1) 0 < a.getD i 0) &&
      decide ((3 : ℚ)/10 < a.getD i 0))

/-- `MaterialClassifier.get_peak_intensity`: maximum intensity over the
wavelength band `[s, e]`.  When the band mask is non-empty, numpy's
boolean indexing `intensities[mask]` raises `IndexError` unless the mask
(built on `wavelengths`) and `intensities` have the same length. -/
def get_peak_intensity (w i : List ℚ) (s e : ℚ) : Except PyErr ℚ :=
  let mask := w.map (fun x => decide (s ≤ x) && decide (x ≤ e))
  if mask.any id then
    if w.length ≠ i.length then .error .indexError
    else
      .ok (listMaxD ((w.zip i).filterMap
        (fun p => if s ≤ p.1 ∧ p.1 ≤ e then some p.2 else none)) 0)
  else .ok 0

/-- `MaterialClassifier.preprocess_spectrum`: the 18-entry feature
vector (9 statistical/shape features, then the 12 material-signature
features truncated to 9: iron/copper band, silica band, carbon–hydrogen
band interleaved with zeros).  Standard deviations are stored squared
(see the module comment).  The spectral-slope division raises
`ZeroDivisionError` when first and last wavelengths coincide. -/
def preprocess_spectrum (w i : List ℚ) : Except PyErr (List ℚ) := do
  let iN ← normalizeIntensities i
  let peaks := spectrumPeaks iN
  let peaksQ := peaks.map (fun p => (p : ℚ))
  let statFeatures :=
    [npMean iN, npVar iN, listMaxD iN 0, listMinD iN 0, npMedian iN,
      (peaks.length : ℚ),
      if peaks = [] then 0 else npMean peaksQ,
      if peaks = [] then 0 else npVar peaksQ]
  let slope ←
    if w.length > 1 then
      let denom := w.getLastD 0 - w.headD 0
      if denom = 0 then Except.error PyErr.zeroDivision
      else Except.ok ((iN.getLastD 0 - iN.headD 0) / denom)
    else Except.ok 0
  let fe ← get_peak_intensity w iN 290 310
  let si ← get_peak_intensity w iN 900 1000
  let ch ← get_peak_intensity w iN 1600 1700
  return statFeatures ++ [slope] ++ [fe, 0, 0, 0, si, 0, 0, 0, ch]

/-! ## PreservationService (`preservation_service.py`) -/

/-- A Python float as the preservation code sees it: an exact value or
one of the non-finite markers the code tests with
`math.isnan` / `math.isinf`. -/
inductive PyFloat
  | fin (q : ℚ)
  | nan
  | inf
  | ninf
deriving DecidableEq

/-- NaN/Inf sanitisation to 0 (turbidity and TDS); finite values pass
through.  The preceding `getattr(…, 0) or 0` in the source is the
numeric identity on floats (`0.0 or 0` is `0`). -/
def sanitizeZero : PyFloat → ℚ
  | .fin q => q
  | _ => 0

/-- NaN/Inf sanitisation to the default temperature 20. -/
def sanitizeTemp : PyFloat → ℚ
  | .fin q => q
  | _ => 20

/-- One row of the 30-material reference table. -/
structure MaterialProps where
  displayName : String
  base_survival : ℚ
  turbidity_threshold : ℚ
  turbidity_penalty : ℚ
  temperature_threshold : ℚ
  temperature_penalty : ℚ
  tds_threshold : ℚ
  tds_penalty : ℚ
deriving DecidableEq

/-- The `material_database` dict of `PreservationService.__init__`, in
source order. -/
def materialDatabase : List (String × MaterialProps) :=
  [("wood", ⟨"Дерево", 20, 50, 10, 25, 5, 500, 5⟩),
   ("paper", ⟨"Бумага/Пергамент", 15, 50, 15, 25, 5, 500, 5⟩),
   ("fabric", ⟨"Ткань", 20, 50, 10, 25, 5, 500, 5⟩),
   ("leather", ⟨"Кожа", 25, 50, 10, 25, 5, 500, 5⟩),
   ("bone", ⟨"Костяные предметы", 25, 50, 5, 25, 5, 500, 5⟩),
   ("lead", ⟨"Свинец", 50, 80, 5, 30, 2, 1000, 2⟩),
   ("copper", ⟨"Медь", 45, 80, 5, 30, 2, 1000, 3⟩),
   ("brass", ⟨"Латунь", 45, 80, 5, 30, 2, 1000, 3⟩),
   ("tin", ⟨"Олово", 40, 80, 5, 30, 2, 1000, 3⟩),
   ("zinc", ⟨"Цинк", 35, 80, 5, 30, 2, 1000, 3⟩),
   ("iron", ⟨"Железо/Чугун", 30, 50, 10, 30, 5, 800, 5⟩),
   ("steel", ⟨"Сталь", 40, 50, 5, 30, 3, 800, 5⟩),
   ("ceramic", ⟨"Керамика", 70, 100, 5, 1000, 0, 10000, 0⟩),
   ("clay", ⟨"Глина", 60, 100, 5, 1000, 0, 10000, 0⟩),
   ("soft_stone", ⟨"Мягкий камень", 60, 100, 5, 1000, 0, 10000, 0⟩),
   ("hard_stone", ⟨"Твердый камень", 90, 150, 2, 1000, 0, 10000, 0⟩),
   ("glass", ⟨"Стекло", 80, 100, 5, 1000, 0, 10000, 0⟩),
   ("plastic", ⟨"Пластик", 75, 150, 2, 1000, 0, 10000, 0⟩),
   ("rubber", ⟨"Резина", 65, 150, 2, 1000, 0, 10000, 0⟩),
   ("quartz", ⟨"Кварц", 95, 10000, 0, 10000, 0, 10000, 0⟩),
   ("gold", ⟨"Золото", 100, 10000, 0, 10000, 0, 10000, 0⟩),
   ("silver", ⟨"Серебро", 95, 150, 2, 1000, 0, 1500, 2⟩),
   ("platinum", ⟨"Платина", 100, 10000, 0, 10000, 0, 10000, 0⟩),
   ("porcelain", ⟨"Фарфор", 90, 150, 2, 1000, 0, 10000, 0⟩),
   ("marble", ⟨"Мрамор", 85, 150, 2, 1000, 0, 10000, 0⟩),
   ("bronze", ⟨"Бронза", 75, 80, 5, 30, 2, 1000, 3⟩),
   ("asphalt", ⟨"Асфальт/Битум", 65, 80, 5, 1000, 0, 1000, 2⟩),
   ("ebonite", ⟨"Эбонит", 65, 80, 5, 1000, 0, 1000, 2⟩),
   ("fired_clay", ⟨"Обожженная глина", 80, 150, 2, 1000, 0, 10000, 0⟩),
   ("obsidian", ⟨"Обсидиан", 95, 10000, 0, 10000, 0, 10000, 0⟩)]

/-- `PreservationService.calculate_material_preservation`: unknown
materials score 100; known materials start from `base_survival`, lose
each fixed penalty whose sanitised sensor value strictly exceeds the
material's threshold, and the result is clamped into `[0, 100]` and
rounded to two decimals. -/
def calculate_material_preservation (material : String)
    (turb temp tds : PyFloat) : ℚ :=
  match materialDatabase.lookup material with
  | none => 100
  | some props =>
    let turbidity := sanitizeZero turb
    let temperature := sanitizeTemp temp
    let tdsVal := sanitizeZero tds
    let p1 :=
      if props.turbidity_threshold < turbidity then
        props.base_survival - props.turbidity_penalty
      else props.base_survival
    let p2 :=
      if props.temperature_threshold < temperature then
        p1 - props.temperature_penalty
      else p1
    let p3 :=
      if props.tds_threshold < tdsVal then p2 - props.tds_penalty
      else p2
    pyRound2 (max 0 (min 100 p3))

/-- `PreservationService.calculate_water_preservation`. -/
def calculate_water_preservation (turb tds temp : PyFloat) : ℚ :=
  let turbidity := sanitizeZero turb
  let tdsVal := sanitizeZero tds
  let temperature := sanitizeTemp temp
  let turbidity_impact := max 0 (turbidity - 10) * (1/2)
  let tds_impact := max 0 (tdsVal - 50) * (1/50)
  let temp_impact := max 0 (temperature - 20) * (3/10)
  pyRound2 (max 0 (100 - (turbidity_impact + tds_impact + temp_impact)))

/-- The exact value claim C8 asserts for the water preservation score
(definition written from the claim's words, for comparison with the
source function): 100 minus the three linear impacts, floored at 0,
with no rounding. -/
def waterPreservationClaimed (turbidity tds temperature : ℚ) : ℚ :=
  max 0 (100 - (max 0 (turbidity - 10) * (1/2) +
    max 0 (tds - 50) * (1/50) + max 0 (temperature - 20) * (3/10)))

/-! ## BroadcastHub (`websocket.py`) -/

/-- Connections are identified by opaque ids. -/
abbrev Conn := Nat

/-- The send loop of `ConnectionManager.broadcast`: each connection in
the copied active set is attempted; `sendFails c = true` models
`send_text` raising (`WebSocketDisconnect` or any other exception), which
adds `c` to the disconnected set.  Returns (received, disconnected). -/
def broadcastLoop (active : List Conn) (sendFails : Conn → Bool) :
    List Conn × List Conn :=
  active.foldl
    (fun acc c =>
      if sendFails c then (acc.1, acc.2 ++ [c])
      else (acc.1 ++ [c], acc.2))
    ([], [])

/-- `set.discard`: remove an element from the active set (modelled as a
duplicate-free list). -/
def discardConn (active : List Conn) (c : Conn) : List Conn :=
  active.filter (fun x => x ≠ c)

/-- `ConnectionManager.broadcast`: attempt every active connection, then
unregister every connection whose send failed.  Returns
(new active set, connections that received the payload). -/
def broadcast (active : List Conn) (sendFails : Conn → Bool) :
    List Conn × List Conn :=
  let r := broadcastLoop active sendFails
  (r.2.foldl discardConn active, r.1)

/-- `ConnectionManager.add_to_buffer`: append, then pop the oldest entry
whenever the buffer holds more than `buffer_size = 100` messages. -/
def add_to_buffer {α : Type} (buffer : List α) (d : α) : List α :=
  let b := buffer ++ [d]
  if b.length > 100 then b.drop 1 else b

/-- Hub state for `send_sensor_data`: the active set and the ring
buffer. -/
structure HubState (α : Type) where
  active : List Conn
  buffer : List α

/-- `ConnectionManager.send_sensor_data`: broadcast the payload, then
append it to the ring buffer. -/
def send_sensor_data {α : Type} (sendFails : Conn → Bool)
    (st : HubState α) (d : α) : HubState α :=
  let r := broadcast st.active sendFails
  { active := r.1, buffer := add_to_buffer st.buffer d }

/-! ### Cross-thread dispatch (`send_sensor_data_from_thread`) -/

/-- Outcome of waiting on the cross-thread broadcast future. -/
inductive FutureOutcome
  | completed
  | timedOut
  | raised
deriving DecidableEq

/-- A reference to an asyncio event loop.  A loop object is always
truthy in Python, so the source's `if not self.loop` guard does not
distinguish an open loop from one that has since been *closed*; the
`closed` flag records that state. -/
structure LoopRef where
  id : Nat
  closed : Bool
deriving DecidableEq

/-- The environment `send_sensor_data_from_thread` runs in: the stored
loop reference, the result of `get_event_loop` (`none` models the
`RuntimeError`), and how the dispatched broadcast future resolves. -/
structure ThreadEnv where
  loopRef : Option LoopRef
  policyLoop : Option LoopRef
  outcome : FutureOutcome
deriving DecidableEq

/-- What the call logged. -/
inductive ThreadSendLog
  | errorNoLoop
  | infoSent
  | errorSendFailed
deriving DecidableEq

/-- Observable result of `send_sensor_data_from_thread`; `μ` is the type
of the serialised message handed to the broadcast. -/
structure ThreadSendResult (μ : Type) where
  log : ThreadSendLog
  newLoopRef : Option LoopRef
  broadcastDispatched : Bool
  timeoutUsed : Option ℚ
  dispatchedMessage : Option μ
deriving DecidableEq

/-- `future.result(timeout)` as the environment resolves it. -/
def futureResultModel : FutureOutcome → Except PyErr Unit
  | .completed => .ok ()
  | .timedOut => .error .timeoutError
  | .raised => .error .runtimeError

/-- `asyncio.run_coroutine_threadsafe(coro, loop)`: schedules the
coroutine on the loop, raising `RuntimeError` *synchronously* when the
loop has been closed.  In the source this call sits outside the
`try/except`. -/
def runCoroutineThreadsafe (lp : LoopRef) : Except PyErr Unit :=
  if lp.closed then .error .runtimeError else .ok ()

/-- The dispatch half of `send_sensor_data_from_thread`: the unguarded
`run_coroutine_threadsafe` call (whose synchronous `RuntimeError` on a
closed loop propagates to the caller), then the
`future.result(timeout=1.0)` wait wrapped in `try/except Exception` —
a completed future logs success, any exception of the wait (timeout
included) is caught and logged. -/
def dispatchBroadcast {μ : Type} (m : μ) (lp : LoopRef) (o : FutureOutcome) :
    Except PyErr (ThreadSendResult μ) :=
  match runCoroutineThreadsafe lp with
  | .error e => .error e
  | .ok _ =>
    match futureResultModel o with
    | .ok _ => .ok ⟨.infoSent, some lp, true, some 1, some m⟩
    | .error _ => .ok ⟨.errorSendFailed, some lp, true, some 1, some m⟩

/-- `ConnectionManager.send_sensor_data_from_thread`.  The result type is
`Except` because the Python function *can* raise: `json.dumps`
(modelled by the fallible `dumps`, which happens after loop resolution)
and `run_coroutine_threadsafe` both sit outside the `try/except`. -/
def send_sensor_data_from_thread {α μ : Type} (dumps : α → Except PyErr μ)
    (payload : α) (env : ThreadEnv) : Except PyErr (ThreadSendResult μ) :=
  match env.loopRef with
  | some lp =>
    match dumps payload with
    | .error e => .error e
    | .ok m => dispatchBroadcast m lp env.outcome
  | none =>
    match env.policyLoop with
    | none => .ok ⟨.errorNoLoop, none, false, none, none⟩
    | some lp =>
      match dumps payload with
      | .error e => .error e
      | .ok m => dispatchBroadcast m lp env.outcome

/-! ## Auxiliary definitions for stating the claims -/

/-- The conditioning behaviour claim C2 asserts for profiles of length
greater than 3 (definition written from the claim's words, for
comparison with the source function): the Butterworth bandpass with
fallback, and nothing else. -/
def preprocessClaimedC2 (bf : ℚ → ℚ → List ℚ → Option (List ℚ))
    (raw : List ℚ) (rate : ℚ) : List ℚ :=
  if raw.length ≤ 3 then raw else tryBandpass bf rate raw

/-- A concrete bandpass filter instance (annihilates the signal, as a
real bandpass does to a constant trace) used to witness which branch the
conditioning takes. -/
def bfZeroTest : ℚ → ℚ → List ℚ → Option (List ℚ) :=
  fun _ _ l => some (l.map (fun _ => 0))

/-- A concrete smoothing-filter instance (identity). -/
def sgIdTest : Nat → Nat → List ℚ → List ℚ := fun _ _ l => l

/-- The inputs `math.isnan`/`math.isinf` flag in the preservation
code. -/
def NonFinite (x : PyFloat) : Prop :=
  x = PyFloat.nan ∨ x = PyFloat.inf ∨ x = PyFloat.ninf

/-! # Theorems -/

/-! ## Rounding lemmas -/

theorem roundHalfEven_nonneg {x : ℚ} (h : 0 ≤ x) : 0 ≤ roundHalfEven x := by
  have hf : (0 : ℤ) ≤ ⌊x⌋ := Int.floor_nonneg.mpr h
  unfold roundHalfEven
  split_ifs <;> omega

theorem roundHalfEven_le_int {x : ℚ} {n : ℤ} (h : x ≤ (n : ℚ)) :
    roundHalfEven x ≤ n := by
  have hf : ⌊x⌋ ≤ n := by
    have h1 := Int.floor_le_floor h
    rwa [Int.floor_intCast] at h1
  unfold roundHalfEven
  split_ifs with h1 h2 h3
  · exact hf
  · -- x - ⌊x⌋ > 1/2, so x is strictly above ⌊x⌋; if ⌊x⌋ = n then x ≤ n = ⌊x⌋
    have hx : (⌊x⌋ : ℚ) < x := by linarith
    have : ⌊x⌋ ≠ n := by
      intro he
      rw [he] at hx
      linarith
    omega
  · exact hf
  · have hx : (⌊x⌋ : ℚ) < x := by linarith
    have : ⌊x⌋ ≠ n := by
      intro he
      rw [he] at hx
      linarith
    omega

theorem roundHalfEven_mono {x y : ℚ} (h : x ≤ y) :
    roundHalfEven x ≤ roundHalfEven y := by
  have hf : ⌊x⌋ ≤ ⌊y⌋ := Int.floor_le_floor h
  rcases lt_or_eq_of_le hf with hlt | heq
  · have h1 : roundHalfEven x ≤ ⌊x⌋ + 1 := by
      unfold roundHalfEven
      split_ifs <;> omega
    have h2 : ⌊y⌋ ≤ roundHalfEven y := by
      unfold roundHalfEven
      split_ifs <;> omega
    omega
  · have hle : x - (⌊x⌋ : ℚ) ≤ y - (⌊y⌋ : ℚ) := by
      rw [← heq]
      linarith
    unfold roundHalfEven
    rw [← heq]
    split_ifs <;> first | omega | linarith

theorem pyRound2_mono {x y : ℚ} (h : x ≤ y) : pyRound2 x ≤ pyRound2 y := by
  unfold pyRound2
  have h1 : roundHalfEven (x * 100) ≤ roundHalfEven (y * 100) :=
    roundHalfEven_mono (by linarith)
  have h2 : ((roundHalfEven (x * 100) : ℤ) : ℚ) ≤
      ((roundHalfEven (y * 100) : ℤ) : ℚ) := by exact_mod_cast h1
  linarith

theorem pyRound2_nonneg {x : ℚ} (h : 0 ≤ x) : 0 ≤ pyRound2 x := by
  unfold pyRound2
  have h1 : (0 : ℤ) ≤ roundHalfEven (x * 100) :=
    roundHalfEven_nonneg (by linarith)
  have h2 : (0 : ℚ) ≤ ((roundHalfEven (x * 100) : ℤ) : ℚ) := by
    exact_mod_cast h1
  linarith

theorem pyRound2_le_100 {x : ℚ} (h : x ≤ 100) : pyRound2 x ≤ 100 := by
  unfold pyRound2
  have h1 : roundHalfEven (x * 100) ≤ (10000 : ℤ) :=
    roundHalfEven_le_int (by push_cast; linarith)
  have h2 : ((roundHalfEven (x * 100) : ℤ) : ℚ) ≤ (10000 : ℚ) := by
    exact_mod_cast h1
  linarith

/-! ## C1 — classification confidence range -/

unseal Rat.add Rat.mul Rat.sub Rat.inv in
/-- C1 counterexample: the claim quantifies over every reflection input,
but the fallback branch of `classify_anomaly` applied to amplitude 3
(width 10, no surrounding samples) returns confidence
`max(0.1, 3·0.5) = 1.5 > 1`, outside `[0, 1]`. -/
theorem C1_counterexample :
    classify_anomaly 3 10 0 [] = (AnomalyType.unknown, 3/2) ∧
      ¬ (classify_anomaly 3 10 0 []).2 ≤ 1 := by decide

/-- C1 (amended): for every reflection input whose amplitude satisfies
`|amplitude| ≤ 2`, `classify_anomaly` returns a confidence in `[0, 1]`
(so anomalies built from such reflections, including the fallback branch
`max(0.1, |amplitude|·0.5)`, carry confidences in `[0, 1]`; the fallback
exceeds 1 exactly when `|amplitude| > 2`). -/
theorem C1_confidence_unit_interval (amp w depth : ℚ) (surrounding : List ℚ)
    (h : |amp| ≤ 2) :
    0 ≤ (classify_anomaly amp w depth surrounding).2 ∧
      (classify_anomaly amp w depth surrounding).2 ≤ 1 := by
  have ha : (0 : ℚ) ≤ |amp| := abs_nonneg amp
  simp only [classify_anomaly]
  split_ifs with h1 h2 h3 h4
  · exact ⟨le_min (by norm_num) ha,
      le_trans (min_le_left _ _) (by norm_num)⟩
  · exact ⟨le_min (by norm_num) (by positivity),
      le_trans (min_le_left _ _) (by norm_num)⟩
  · exact ⟨le_min (by norm_num) (by positivity),
      le_trans (min_le_left _ _) (by norm_num)⟩
  · exact ⟨by norm_num, by norm_num⟩
  · exact ⟨le_trans (by norm_num) (le_max_left _ _),
      max_le (by norm_num) (by linarith)⟩

theorem C1_confidence_unit_interval_witness :
    |(3/10 : ℚ)| ≤ 2 ∧
      (0 ≤ (classify_anomaly (3/10) 9 0 []).2 ∧
        (classify_anomaly (3/10) 9 0 []).2 ≤ 1) :=
  have habs : |(3/10 : ℚ)| ≤ 2 := by
    rw [abs_le]
    constructor <;> norm_num
  ⟨habs, C1_confidence_unit_interval (3/10) 9 0 [] habs⟩

/-! ## C2 — signal conditioning structure -/

unseal Rat.add Rat.mul Rat.sub Rat.inv in
/-- C2 counterexample: on the length-4 profile `[1,1,1,1]` the source
takes neither the bandpass nor the smoothing branch and returns the
profile unchanged, whereas the claim ("every profile of length > 3 gets
the Butterworth bandpass, with fallback") demands the filtered signal:
with a filter that (like a genuine bandpass acting on a constant trace)
annihilates the signal, the two disagree. -/
theorem C2_counterexample :
    preprocess_signal bfZeroTest sgIdTest [1, 1, 1, 1] 1000 = [1, 1, 1, 1] ∧
      preprocessClaimedC2 bfZeroTest [1, 1, 1, 1] 1000 = [0, 0, 0, 0] ∧
      preprocess_signal bfZeroTest sgIdTest [1, 1, 1, 1] 1000 ≠
        preprocessClaimedC2 bfZeroTest [1, 1, 1, 1] 1000 := by decide

unseal Rat.add Rat.mul Rat.sub Rat.inv in
/-- C2 (amended): profiles of length < 3 are returned unmodified by the
early exit, and in fact every profile of length ≤ 5 comes out equal to
the input; profiles of length 6–8 receive only the Savitzky–Golay
smoothing pass (window 5, order 3); the Butterworth bandpass — 10–1000
MHz against Nyquist, cutoffs clamped into [0.01, 0.99] with low < high
forced (at the default 1000 Hz sampling rate: (0.02, 0.99)), falling
back to the unfiltered signal on failure — is attempted only for
profiles of length > 8, followed by the same smoothing pass; the
function is total (never raises). -/
theorem C2_conditioning_structure (bf : ℚ → ℚ → List ℚ → Option (List ℚ))
    (sg : Nat → Nat → List ℚ → List ℚ) (raw : List ℚ) (rate : ℚ) :
    (raw.length ≤ 5 → preprocess_signal bf sg raw rate = raw) ∧
    (5 < raw.length → raw.length ≤ 8 →
      preprocess_signal bf sg raw rate = sg 5 3 raw) ∧
    (8 < raw.length →
      preprocess_signal bf sg raw rate =
        savgolStage sg (tryBandpass bf rate raw)) ∧
    (∀ l : List ℚ, 5 < l.length → savgolStage sg l = sg 5 3 l) ∧
    normCutoffs 1000 = (1/50, 99/100) := by
  have hsav : ∀ l : List ℚ, 5 < l.length → savgolStage sg l = sg 5 3 l := by
    intro l hl
    unfold savgolStage
    rw [if_pos hl, Nat.min_eq_left (by omega)]
    norm_num
    intro hcon
    exact absurd hl (by omega)
  refine ⟨?_, ?_, ?_, hsav, by decide⟩
  · intro h5
    unfold preprocess_signal
    by_cases h3 : raw.length < 3
    · rw [if_pos h3]
    · rw [if_neg h3, if_neg (by omega)]
      unfold savgolStage
      rw [if_neg (by omega)]
  · intro h5 h8
    unfold preprocess_signal
    rw [if_neg (by omega), if_neg (by omega)]
    exact hsav raw h5
  · intro h8
    unfold preprocess_signal
    rw [if_neg (by omega), if_pos (by omega)]

unseal Rat.add Rat.mul Rat.sub Rat.inv in
theorem C2_conditioning_structure_witness :
    ([1, 1, 1, 1] : List ℚ).length ≤ 5 ∧
      preprocess_signal bfZeroTest sgIdTest [1, 1, 1, 1] 1000 = [1, 1, 1, 1] :=
  ⟨by decide,
    (C2_conditioning_structure bfZeroTest sgIdTest [1, 1, 1, 1] 1000).1
      (by decide)⟩

/-! ## C4 / C5 — broadcast hub -/

theorem broadcastLoop_go (sendFails : Conn → Bool) (l : List Conn) :
    ∀ acc1 acc2 : List Conn,
      List.foldl
        (fun acc c => if sendFails c then (acc.1, acc.2 ++ [c])
          else (acc.1 ++ [c], acc.2)) (acc1, acc2) l =
      (acc1 ++ l.filter (fun c => !sendFails c),
        acc2 ++ l.filter sendFails) := by
  induction l with
  | nil => intro a b; simp
  | cons c t ih =>
    intro a b
    by_cases h : sendFails c <;>
      simp only [List.foldl_cons, h, if_true, if_false, Bool.not_true,
        Bool.not_false] <;>
      rw [ih] <;>
      simp [List.filter_cons, h]

theorem broadcastLoop_spec (active : List Conn) (sendFails : Conn → Bool) :
    broadcastLoop active sendFails =
      (active.filter (fun c => !sendFails c), active.filter sendFails) := by
  unfold broadcastLoop
  rw [broadcastLoop_go]
  simp

theorem foldl_discardConn (ds : List Conn) :
    ∀ l : List Conn,
      ds.foldl discardConn l = l.filter (fun x => decide (x ∉ ds)) := by
  induction ds with
  | nil => intro l; simp
  | cons d t ih =>
    intro l
    simp only [List.foldl_cons]
    rw [ih]
    unfold discardConn
    rw [List.filter_filter]
    apply List.filter_congr
    intro x _
    simp [List.mem_cons, not_or]
    exact Bool.and_comm _ _

theorem length_filter_not_add (l : List Conn) (p : Conn → Bool) :
    (l.filter (fun c => !p c)).length + (l.filter p).length = l.length := by
  induction l with
  | nil => simp
  | cons c t ih => by_cases h : p c <;> simp [List.filter_cons, h] <;> omega

/-- C5: `broadcast` attempts delivery to every currently active
connection; exactly the non-failing connections receive the payload and
stay registered, the failing ones are unregistered in the same call, and
the count of survivors is `n − k`. -/
theorem C5_broadcast_isolation (active : List Conn) (sendFails : Conn → Bool) :
    (broadcast active sendFails).2 = active.filter (fun c => !sendFails c) ∧
    (broadcast active sendFails).1 = active.filter (fun c => !sendFails c) ∧
    (broadcast active sendFails).1.length +
        (active.filter sendFails).length = active.length := by
  have hloop := broadcastLoop_spec active sendFails
  have h1 : (broadcast active sendFails).1 =
      active.filter (fun c => !sendFails c) := by
    unfold broadcast
    rw [hloop]
    dsimp only
    rw [foldl_discardConn]
    apply List.filter_congr
    intro x hx
    by_cases h : sendFails x <;> simp [List.mem_filter, h, hx]
  refine ⟨?_, h1, ?_⟩
  · unfold broadcast
    rw [hloop]
  · rw [h1]
    exact length_filter_not_add active sendFails

theorem add_to_buffer_spec {α : Type} (ps : List α) :
    ∀ buf : List α, buf.length ≤ 100 →
      ps.foldl add_to_buffer buf =
        (buf ++ ps).drop (buf.length + ps.length - 100) := by
  induction ps with
  | nil =>
    intro buf h
    simp [Nat.sub_eq_zero_of_le h]
  | cons p t ih =>
    intro buf h
    simp only [List.foldl_cons]
    by_cases h100 : buf.length = 100
    · have hb : add_to_buffer buf p = (buf ++ [p]).drop 1 := by
        unfold add_to_buffer
        rw [if_pos (by simp [h100])]
      rw [hb, ih _ (by simp [h100])]
      rw [← List.drop_append_of_le_length (by simp [h100])]
      rw [List.drop_drop]
      simp [List.append_assoc, List.length_drop, h100]
      rw [Nat.add_comm]
    · have hlt : buf.length < 100 := lt_of_le_of_ne h h100
      have hb : add_to_buffer buf p = buf ++ [p] := by
        unfold add_to_buffer
        rw [if_neg (by simp; omega)]
      rw [hb, ih _ (by simp; omega)]
      have harith : (buf ++ [p]).length + t.length - 100 =
          buf.length + (p :: t).length - 100 := by
        simp
        omega
      rw [harith]
      simp [List.append_assoc]

/-- C4: every `send_sensor_data` appends the payload to the ring buffer
after the delivery attempt; starting from an empty buffer the buffer
never exceeds 100 entries; and after 101 appends the buffer is exactly
the last 100 payloads — the first-appended payload has been evicted. -/
theorem C4_ring_buffer (α : Type) :
    (∀ (sendFails : Conn → Bool) (st : HubState α) (d : α),
        (send_sensor_data sendFails st d).buffer = add_to_buffer st.buffer d) ∧
    (∀ ps : List α, (ps.foldl add_to_buffer []).length ≤ 100) ∧
    (∀ ps : List α, ps.length = 101 →
        ps.foldl add_to_buffer [] = ps.drop 1) := by
  refine ⟨fun f st d => rfl, ?_, ?_⟩
  · intro ps
    rw [add_to_buffer_spec ps [] (by simp)]
    simp [List.length_drop]
    omega
  · intro ps h
    rw [add_to_buffer_spec ps [] (by simp)]
    simp [h]

theorem C4_ring_buffer_witness :
    (List.range 101).length = 101 ∧
      (List.range 101).foldl add_to_buffer [] = (List.range 101).drop 1 :=
  ⟨by simp, (C4_ring_buffer Nat).2.2 (List.range 101) (by simp)⟩

/-! ## C6 / C10 — material preservation -/

theorem sanitizeZero_nonFinite {x : PyFloat} (h : NonFinite x) :
    sanitizeZero x = 0 := by
  rcases h with h | h | h <;> subst h <;> rfl

theorem sanitizeTemp_nonFinite {x : PyFloat} (h : NonFinite x) :
    sanitizeTemp x = 20 := by
  rcases h with h | h | h <;> subst h <;> rfl

/-- C6: for every material name and every sensor reading — NaN/Inf
included — `calculate_material_preservation` stays within `[0, 100]`,
and non-finite turbidity/temperature/TDS behave exactly like the safe
defaults 0 / 20 / 0. -/
theorem C6_material_preservation_bounds :
    (∀ (material : String) (turb temp tds : PyFloat),
        0 ≤ calculate_material_preservation material turb temp tds ∧
          calculate_material_preservation material turb temp tds ≤ 100) ∧
    (∀ (material : String) (turb temp tds : PyFloat), NonFinite turb →
        calculate_material_preservation material turb temp tds =
          calculate_material_preservation material (.fin 0) temp tds) ∧
    (∀ (material : String) (turb temp tds : PyFloat), NonFinite temp →
        calculate_material_preservation material turb temp tds =
          calculate_material_preservation material turb (.fin 20) tds) ∧
    (∀ (material : String) (turb temp tds : PyFloat), NonFinite tds →
        calculate_material_preservation material turb temp tds =
          calculate_material_preservation material turb temp (.fin 0)) := by
  refine ⟨?_, ?_, ?_, ?_⟩
  · intro material turb temp tds
    unfold calculate_material_preservation
    cases materialDatabase.lookup material with
    | none => norm_num
    | some props =>
      dsimp only
      constructor
      · exact pyRound2_nonneg (le_max_left _ _)
      · exact pyRound2_le_100 (max_le (by norm_num) (min_le_left _ _))
  · intro material turb temp tds h
    unfold calculate_material_preservation
    cases materialDatabase.lookup material with
    | none => rfl
    | some props =>
      rw [sanitizeZero_nonFinite h]
      rfl
  · intro material turb temp tds h
    unfold calculate_material_preservation
    cases materialDatabase.lookup material with
    | none => rfl
    | some props =>
      rw [sanitizeTemp_nonFinite h]
      rfl
  · intro material turb temp tds h
    unfold calculate_material_preservation
    cases materialDatabase.lookup material with
    | none => rfl
    | some props =>
      rw [sanitizeZero_nonFinite h]
      rfl

theorem C6_material_preservation_bounds_witness :
    (0 ≤ calculate_material_preservation "wood" .nan .inf .ninf ∧
      calculate_material_preservation "wood" .nan .inf .ninf ≤ 100) ∧
    calculate_material_preservation "wood" .nan (.fin 20) (.fin 0) =
      calculate_material_preservation "wood" (.fin 0) (.fin 20) (.fin 0) :=
  ⟨C6_material_preservation_bounds.1 "wood" .nan .inf .ninf,
    C6_material_preservation_bounds.2.1 "wood" .nan (.fin 20) (.fin 0)
      (Or.inl rfl)⟩

/-- C10: the material reference table has exactly 30 entries, and for
any material name outside it `calculate_material_preservation` returns
exactly 100 regardless of the sensor readings. -/
theorem C10_unknown_material_scores_100 :
    materialDatabase.length = 30 ∧
    ∀ (material : String) (turb temp tds : PyFloat),
      materialDatabase.lookup material = none →
        calculate_material_preservation material turb temp tds = 100 := by
  refine ⟨by decide, ?_⟩
  intro material turb temp tds h
  unfold calculate_material_preservation
  rw [h]

theorem C10_unknown_material_scores_100_witness :
    materialDatabase.lookup "adamantium" = none ∧
      calculate_material_preservation "adamantium" .nan (.fin 1000)
        (.fin 1000) = 100 :=
  have h : materialDatabase.lookup "adamantium" = none := by decide
  ⟨h, C10_unknown_material_scores_100.2 "adamantium" .nan (.fin 1000)
    (.fin 1000) h⟩

/-! ## C8 — water preservation formula -/

unseal Rat.add Rat.mul Rat.sub Rat.inv in
/-- C8 counterexample: the code rounds the linear-impact formula to two
decimals (Python `round`) while the claim asserts exact equality with
the unrounded formula: at turbidity 10.25 (TDS 0, temperature 0) the
formula yields 99.875 but the code returns 99.88. -/
theorem C8_counterexample :
    calculate_water_preservation (.fin (41/4)) (.fin 0) (.fin 0) = 2497/25 ∧
      waterPreservationClaimed (41/4) 0 0 = 799/8 ∧
      calculate_water_preservation (.fin (41/4)) (.fin 0) (.fin 0) ≠
        waterPreservationClaimed (41/4) 0 0 := by decide

/-- C8 (amended): `calculate_water_preservation` equals the claimed
formula — 100 minus the three linear impacts, floored at 0 — *rounded to
two decimal places* (banker's rounding), and it is still monotonically
non-increasing in each of turbidity, TDS and temperature (holding the
other two fixed) once that input exceeds its floor (10 / 50 / 20),
because the rounding is monotone. -/
theorem C8_water_rounded_monotone :
    (∀ t d c : ℚ, calculate_water_preservation (.fin t) (.fin d) (.fin c) =
        pyRound2 (waterPreservationClaimed t d c)) ∧
    (∀ t₁ t₂ d c : ℚ, 10 ≤ t₁ → t₁ ≤ t₂ →
        calculate_water_preservation (.fin t₂) (.fin d) (.fin c) ≤
          calculate_water_preservation (.fin t₁) (.fin d) (.fin c)) ∧
    (∀ d₁ d₂ t c : ℚ, 50 ≤ d₁ → d₁ ≤ d₂ →
        calculate_water_preservation (.fin t) (.fin d₂) (.fin c) ≤
          calculate_water_preservation (.fin t) (.fin d₁) (.fin c)) ∧
    (∀ c₁ c₂ t d : ℚ, 20 ≤ c₁ → c₁ ≤ c₂ →
        calculate_water_preservation (.fin t) (.fin d) (.fin c₂) ≤
          calculate_water_preservation (.fin t) (.fin d) (.fin c₁)) := by
  have heq : ∀ t d c : ℚ,
      calculate_water_preservation (.fin t) (.fin d) (.fin c) =
        pyRound2 (waterPreservationClaimed t d c) := fun t d c => rfl
  refine ⟨heq, ?_, ?_, ?_⟩
  · intro t₁ t₂ d c _h10 h12
    rw [heq, heq]
    apply pyRound2_mono
    unfold waterPreservationClaimed
    apply max_le_max (le_refl 0)
    have him : max 0 (t₁ - 10) * (1/2) ≤ max 0 (t₂ - 10) * (1/2) :=
      mul_le_mul_of_nonneg_right
        (max_le_max (le_refl 0) (by linarith)) (by norm_num)
    linarith
  · intro d₁ d₂ t c _h50 h12
    rw [heq, heq]
    apply pyRound2_mono
    unfold waterPreservationClaimed
    apply max_le_max (le_refl 0)
    have him : max 0 (d₁ - 50) * (1/50) ≤ max 0 (d₂ - 50) * (1/50) :=
      mul_le_mul_of_nonneg_right
        (max_le_max (le_refl 0) (by linarith)) (by norm_num)
    linarith
  · intro c₁ c₂ t d _h20 h12
    rw [heq, heq]
    apply pyRound2_mono
    unfold waterPreservationClaimed
    apply max_le_max (le_refl 0)
    have him : max 0 (c₁ - 20) * (3/10) ≤ max 0 (c₂ - 20) * (3/10) :=
      mul_le_mul_of_nonneg_right
        (max_le_max (le_refl 0) (by linarith)) (by norm_num)
    linarith

theorem C8_water_rounded_monotone_witness :
    calculate_water_preservation (.fin 11) (.fin 50) (.fin 20) ≤
      calculate_water_preservation (.fin 10) (.fin 50) (.fin 20) :=
  C8_water_rounded_monotone.2.1 10 11 50 20 (le_refl 10) (by norm_num)

/-! ## C9 — cross-thread dispatch -/

theorem dispatchBroadcast_ok {μ : Type} (m : μ) {lp : LoopRef}
    (h : lp.closed = false) (o : FutureOutcome) :
    exOk (dispatchBroadcast m lp o) = true := by
  unfold dispatchBroadcast runCoroutineThreadsafe
  rw [if_neg (by simp [h])]
  cases o <;> rfl

theorem dispatchBroadcast_ok_fields {μ : Type} (m : μ) (lp : LoopRef)
    (o : FutureOutcome) :
    ∀ r, dispatchBroadcast m lp o = .ok r →
      r.timeoutUsed = some 1 ∧ r.dispatchedMessage = some m := by
  intro r hr
  unfold dispatchBroadcast runCoroutineThreadsafe at hr
  by_cases h : lp.closed = true
  · rw [if_pos h] at hr
    simp at hr
  · rw [if_neg h] at hr
    cases o <;>
      simp only [futureResultModel, Except.ok.injEq] at hr <;>
      subst hr <;>
      exact ⟨rfl, rfl⟩

theorem send_from_thread_some {α μ : Type} {dumps : α → Except PyErr μ}
    {payload : α} {m : μ} (hd : dumps payload = Except.ok m)
    (lp : LoopRef) (pl : Option LoopRef) (o : FutureOutcome) :
    send_sensor_data_from_thread dumps payload ⟨some lp, pl, o⟩ =
      dispatchBroadcast m lp o := by
  unfold send_sensor_data_from_thread
  rw [hd]

theorem send_from_thread_policy {α μ : Type} {dumps : α → Except PyErr μ}
    {payload : α} {m : μ} (hd : dumps payload = Except.ok m)
    (lp : LoopRef) (o : FutureOutcome) :
    send_sensor_data_from_thread dumps payload ⟨none, some lp, o⟩ =
      dispatchBroadcast m lp o := by
  unfold send_sensor_data_from_thread
  rw [hd]

/-- C9 counterexample: the claim quantifies over *every* state of the
event-loop reference, but with the stored reference pointing at a loop
that has since been closed, `asyncio.run_coroutine_threadsafe` — which
sits outside the `try/except` — raises `RuntimeError` synchronously and
`send_sensor_data_from_thread` raises to its caller instead of
returning normally. -/
theorem C9_counterexample :
    send_sensor_data_from_thread (fun n : Nat => Except.ok n) 0
        ⟨some ⟨0, true⟩, none, .completed⟩ =
      .error .runtimeError ∧
    exOk (send_sensor_data_from_thread (fun n : Nat => Except.ok n) 0
        ⟨some ⟨0, true⟩, none, .completed⟩) = false :=
  ⟨rfl, rfl⟩

/-- C9 (amended): for every payload whose serialisation succeeds and
every environment in which the loop the call resolves (stored, or
obtained from the policy when none is stored) is not closed,
`send_sensor_data_from_thread` returns normally without raising: with no
scheduling context available at all it logs and returns without effect
(before even serialising), every dispatched broadcast blocks the calling
thread only up to the fixed 1-second timeout handed to the wait, and a
dispatch that fails or does not complete is logged, not raised.  A
closed stored loop, by contrast, makes the unguarded
`run_coroutine_threadsafe` raise `RuntimeError` synchronously, and a
non-serialisable payload raises in the equally unguarded `json.dumps`. -/
theorem C9_thread_dispatch_safe {α μ : Type} (dumps : α → Except PyErr μ)
    (payload : α) (env : ThreadEnv) (m : μ)
    (hd : dumps payload = Except.ok m)
    (hstored : ∀ lp, env.loopRef = some lp → lp.closed = false)
    (hpolicy : ∀ lp, env.loopRef = none → env.policyLoop = some lp →
      lp.closed = false) :
    exOk (send_sensor_data_from_thread dumps payload env) = true ∧
    (env.loopRef = none → env.policyLoop = none →
      send_sensor_data_from_thread dumps payload env =
        .ok ⟨.errorNoLoop, none, false, none, none⟩) ∧
    (∀ r, send_sensor_data_from_thread dumps payload env = .ok r →
      r.broadcastDispatched = true →
      r.timeoutUsed = some 1 ∧ r.dispatchedMessage = some m) ∧
    (∀ (lp : LoopRef) (o : FutureOutcome), lp.closed = false →
      futureResultModel o = .ok () ∨
        dispatchBroadcast m lp o =
          .ok ⟨.errorSendFailed, some lp, true, some 1, some m⟩) := by
  obtain ⟨lr, pl, o⟩ := env
  have hdisp : ∀ (lp : LoopRef), lp.closed = false → ∀ o : FutureOutcome,
      dispatchBroadcast m lp o =
        match futureResultModel o with
        | .ok _ => .ok ⟨.infoSent, some lp, true, some 1, some m⟩
        | .error _ => .ok ⟨.errorSendFailed, some lp, true, some 1, some m⟩ := by
    intro lp hcl o
    unfold dispatchBroadcast runCoroutineThreadsafe
    rw [if_neg (by simp [hcl])]
  refine ⟨?_, ?_, ?_, ?_⟩
  · cases lr with
    | some lp =>
      rw [send_from_thread_some hd]
      exact dispatchBroadcast_ok m (hstored lp rfl) o
    | none =>
      cases pl with
      | none => rfl
      | some lp =>
        rw [send_from_thread_policy hd]
        exact dispatchBroadcast_ok m (hpolicy lp rfl rfl) o
  · intro h1 h2
    simp only at h1 h2
    subst h1
    subst h2
    rfl
  · intro r hr hdd
    cases lr with
    | some lp =>
      rw [send_from_thread_some hd] at hr
      exact dispatchBroadcast_ok_fields m lp o r hr
    | none =>
      cases pl with
      | none =>
        have hfn : send_sensor_data_from_thread dumps payload
            ⟨none, none, o⟩ =
            .ok ⟨.errorNoLoop, none, false, none, none⟩ := rfl
        rw [hfn] at hr
        injection hr with h
        subst h
        simp at hdd
      | some lp =>
        rw [send_from_thread_policy hd] at hr
        exact dispatchBroadcast_ok_fields m lp o r hr
  · intro lp o2 hcl
    cases o2 with
    | completed => exact Or.inl rfl
    | timedOut =>
      refine Or.inr ?_
      rw [hdisp lp hcl]
      rfl
    | raised =>
      refine Or.inr ?_
      rw [hdisp lp hcl]
      rfl

theorem C9_thread_dispatch_safe_witness :
    exOk (send_sensor_data_from_thread (fun n : Nat => Except.ok n) 0
      ⟨none, none, .timedOut⟩) = true ∧
      send_sensor_data_from_thread (fun n : Nat => Except.ok n) 0
        ⟨none, none, .timedOut⟩ =
        .ok ⟨.errorNoLoop, none, false, none, none⟩ :=
  have hmain := C9_thread_dispatch_safe (fun n : Nat => Except.ok n) 0
    ⟨none, none, .timedOut⟩ 0 rfl
    (fun _ h => Option.noConfusion h)
    (fun _ _ h => Option.noConfusion h)
  ⟨hmain.1, hmain.2.1 rfl rfl⟩

/-! ## C3 / C7 — degraded inputs and layer partitioning -/

theorem analyze_ok_of_two_le {prof : List ℚ} (h : 2 ≤ prof.length) :
    analyze_depth_profile prof = .ok (analyzeCore prof (gradientBody prof)) := by
  unfold analyze_depth_profile npGradient
  rw [if_neg (by omega)]
  rfl

unseal Rat.add Rat.mul Rat.sub Rat.inv in
/-- C3 counterexample: layer analysis on the empty profile propagates
`np.gradient`'s `ValueError` instead of returning a degraded result, and
feature extraction on a mismatched spectrum (wavelengths `[300]`,
intensities `[0, 1]`) propagates numpy's boolean-mask `IndexError`
instead of returning a zero-feature vector. -/
theorem C3_counterexample :
    exOk (analyze_depth_profile ([] : List ℚ)) = false ∧
      exOk (preprocess_spectrum [300] [0, 1]) = false := by decide

unseal Rat.add Rat.mul Rat.sub Rat.inv in
/-- C3 (amended): `detect_anomalies` returns the empty anomaly list for
an empty profile without raising, and `analyze_depth_profile` succeeds
for every profile of at least 2 samples; but profiles of fewer than 2
samples make layer analysis raise (`np.gradient`), and
`preprocess_spectrum` has no mismatched-length handling — a mismatched
spectrum raises whenever some wavelength falls in a reference band. -/
theorem C3_degraded_inputs (bf : ℚ → ℚ → List ℚ → Option (List ℚ))
    (sg : Nat → Nat → List ℚ → List ℚ) (x y : ℚ) :
    detect_anomalies bf sg [] x y = [] ∧
    (∀ prof : List ℚ, 2 ≤ prof.length →
      exOk (analyze_depth_profile prof) = true) ∧
    exOk (preprocess_spectrum [300] [0, 1]) = false := by
  refine ⟨rfl, ?_, by decide⟩
  intro prof h
  rw [analyze_ok_of_two_le h]
  rfl

theorem C3_degraded_inputs_witness :
    detect_anomalies bfZeroTest sgIdTest [] 0 0 = [] ∧
      2 ≤ ([0, 1] : List ℚ).length ∧
      exOk (analyze_depth_profile ([0, 1] : List ℚ)) = true :=
  ⟨(C3_degraded_inputs bfZeroTest sgIdTest 0 0).1, by simp,
    (C3_degraded_inputs bfZeroTest sgIdTest 0 0).2.1 [0, 1] (by simp)⟩

theorem getLastD_congr {α : Type} {l : List α} (h : l ≠ []) (a b : α) :
    l.getLastD a = l.getLastD b := by
  cases l with
  | nil => exact absurd rfl h
  | cons x xs => rw [List.getLastD_cons, List.getLastD_cons]

theorem layersFrom_nil (prof : List ℚ) (s : Nat) :
    layersFrom prof [] s =
      if s < prof.length then [mkFinalLayer prof s] else [] := by
  simp only [layersFrom]

theorem layersFrom_cons (prof : List ℚ) (b : Nat) (bs : List Nat) (s : Nat) :
    layersFrom prof (b :: bs) s =
      if b - s > 5 then mkMidLayer prof s b :: layersFrom prof bs b
      else layersFrom prof bs s := by
  simp only [layersFrom]

theorem layersFrom_chain (prof : List ℚ) :
    ∀ (bs : List Nat) (s : Nat), s < prof.length →
      (∀ b ∈ bs, b < prof.length) →
      chainOk ((s : ℚ) * (1/10)) (layersFrom prof bs s) = true ∧
      layersFrom prof bs s ≠ [] ∧
      ((layersFrom prof bs s).headD dummyLayer).start_depth =
        (s : ℚ) * (1/10) ∧
      ((layersFrom prof bs s).getLastD dummyLayer).end_depth =
        ((prof.length : ℚ) - 1) * (1/10) := by
  intro bs
  induction bs with
  | nil =>
    intro s hs _
    have hfin : layersFrom prof [] s = [mkFinalLayer prof s] := by
      rw [layersFrom_nil, if_pos hs]
    rw [hfin]
    have h3 : (s : ℚ) + 1 ≤ (prof.length : ℚ) := by
      have h2 : (s + 1 : ℕ) ≤ prof.length := hs
      exact_mod_cast h2
    refine ⟨?_, by simp, rfl, rfl⟩
    simp [chainOk, mkFinalLayer]
    linarith
  | cons b bs ih =>
    intro s hs hball
    have hb : b < prof.length := hball b (List.mem_cons_self b bs)
    have hbs : ∀ x ∈ bs, x < prof.length := fun x hx =>
      hball x (List.mem_cons_of_mem b hx)
    by_cases h5 : b - s > 5
    · have hcons : layersFrom prof (b :: bs) s =
          mkMidLayer prof s b :: layersFrom prof bs b := by
        rw [layersFrom_cons, if_pos h5]
      rw [hcons]
      obtain ⟨ihc, ihne, _ihhead, ihlast⟩ := ih b hb hbs
      refine ⟨?_, by simp, rfl, ?_⟩
      · simp [chainOk, mkMidLayer]
        exact ⟨by omega, by simpa using ihc⟩
      · rw [List.getLastD_cons, getLastD_congr ihne _ dummyLayer]
        exact ihlast
    · have hskip : layersFrom prof (b :: bs) s = layersFrom prof bs s := by
        rw [layersFrom_cons, if_neg h5]
      rw [hskip]
      exact ih s hs hbs

unseal Rat.add Rat.mul Rat.sub Rat.inv in
/-- C7 counterexample: `[5]` is a non-empty depth profile, yet
`analyze_depth_profile` raises on it (`np.gradient` needs at least 2
samples) instead of returning any layers. -/
theorem C7_counterexample :
    ([5] : List ℚ) ≠ [] ∧
      exOk (analyze_depth_profile ([5] : List ℚ)) = false := by decide

/-- C7 (amended): for every depth profile with at least 2 samples,
`analyze_depth_profile` succeeds and its layers form a contiguous,
gap-free chain in ascending depth order — the first layer starts at
depth 0, each layer ends where the next begins, each layer's start does
not exceed its end, and the final layer extends to the depth of the
profile's last sample, `(len − 1)·0.1`.  (Profiles of fewer than 2
samples raise instead.) -/
theorem C7_layers_partition (prof : List ℚ) (h : 2 ≤ prof.length) :
    exOk (analyze_depth_profile prof) = true ∧
    layersOf prof ≠ [] ∧
    chainOk 0 (layersOf prof) = true ∧
    ((layersOf prof).headD dummyLayer).start_depth = 0 ∧
    ((layersOf prof).getLastD dummyLayer).end_depth =
      ((prof.length : ℚ) - 1) * (1/10) := by
  have hA := analyze_ok_of_two_le h
  have hlay : layersOf prof =
      layersFrom prof (boundaryIndices prof.length (gradientBody prof)) 0 := by
    unfold layersOf
    rw [hA]
    rfl
  have hmem : ∀ b ∈ boundaryIndices prof.length (gradientBody prof),
      b < prof.length := by
    intro b hb
    unfold boundaryIndices at hb
    simp only [List.mem_filter] at hb
    exact List.mem_range.mp hb.1
  obtain ⟨hc, hne, hhead, hlast⟩ :=
    layersFrom_chain prof (boundaryIndices prof.length (gradientBody prof))
      0 (by omega) hmem
  simp only [Nat.cast_zero, zero_mul] at hc hhead
  refine ⟨?_, ?_, ?_, ?_, ?_⟩
  · rw [hA]
    rfl
  · rw [hlay]
    exact hne
  · rw [hlay]
    exact hc
  · rw [hlay]
    exact hhead
  · rw [hlay]
    exact hlast

unseal Rat.add Rat.mul Rat.sub Rat.inv in
theorem C7_layers_partition_witness :
    2 ≤ ([0, 1] : List ℚ).length ∧
      (exOk (analyze_depth_profile ([0, 1] : List ℚ)) = true ∧
        layersOf [0, 1] ≠ [] ∧
        chainOk 0 (layersOf [0, 1]) = true ∧
        ((layersOf [0, 1]).headD dummyLayer).start_depth = 0 ∧
        ((layersOf [0, 1]).getLastD dummyLayer).end_depth =
          ((([0, 1] : List ℚ).length : ℚ) - 1) * (1/10)) :=
  ⟨by simp, C7_layers_partition [0, 1] (by simp)⟩
